import Mathlib

/-!
# Verification of the Slowly-Unhinged companion / hub against its specification

Shallow embedding of the companion frontend (`src/plan.md`, TypeScript) and
the central hub (`src/hub/index.js`, `src/hub/zoom_app.js`, JavaScript).

Conventions used throughout:
* JavaScript `%` on integers is truncated remainder, modelled by `Int.tmod`.
* JavaScript string `trim()` and the regex class `\s` are both modelled by
  `Char.isWhitespace` (the inputs of interest are ASCII).
* `Math.hypot` is irrational-valued, so the gesture-recognizer definitions
  take the distance function as an explicit parameter `hyp`; concrete
  evaluations instantiate it with a function that agrees with `Math.hypot`
  on the axis-aligned inputs those evaluations use.
* Asynchronous control flow is modelled by explicit state passing: each
  `async` function becomes a function of its external outcomes
  (success/failure of each awaited call) from state to state.
-/

namespace SlowlyUnhinged

/-! ## JavaScript string primitives

`trim`, `toLowerCase`, and `replace(/\s+/g, " ")`, modelled at the
character-list level. -/

/-- Drop leading whitespace characters (one side of JS `String.trim`). -/
def dropLeadingWs (cs : List Char) : List Char :=
  cs.dropWhile Char.isWhitespace

/-- JS `String.prototype.trim`: remove leading and trailing whitespace. -/
def jsTrim (s : String) : String :=
  ⟨(dropLeadingWs (dropLeadingWs s.data.reverse).reverse)⟩

/-- JS `String.prototype.toLowerCase`, per character. -/
def jsToLower (s : String) : String :=
  ⟨s.data.map Char.toLower⟩

/-- One pass of the global replacement `replace(/\s+/g, " ")`: `prevWs`
records whether the previous character belonged to a whitespace run, so a
maximal run contributes exactly one space. -/
def collapseWsAux : Bool → List Char → List Char
  | _, [] => []
  | prevWs, c :: rest =>
      if c.isWhitespace then
        if prevWs then collapseWsAux true rest
        else ' ' :: collapseWsAux true rest
      else c :: collapseWsAux false rest

/-- JS `replace(/\s+/g, " ")`: collapse every whitespace run to a single
space. -/
def collapseWs (s : String) : String :=
  ⟨collapseWsAux false s.data⟩

/-! ## Hub and Zoom-webview screen-name normalization (claim C9)

Both files define a function `normalizeScreenName(input)` that returns ""
for non-string input and otherwise
`input.trim().toLowerCase().replace(/\s+/g, " ")`.  A non-string input is
modelled as `none`. -/

/-- `normalizeScreenName` from `src/hub/index.js` lines 54-59. -/
def hubNormalizeScreenName (input : Option String) : String :=
  match input with
  | none => ""
  | some s => collapseWs (jsToLower (jsTrim s))

/-- `normalizeScreenName` from `src/hub/zoom_app.js` lines 22-27. -/
def zoomNormalizeScreenName (input : Option String) : String :=
  match input with
  | none => ""
  | some s => collapseWs (jsToLower (jsTrim s))

/-! ## Dial wheels (claims C5, C6)

`src/plan.md`: `CHARSET` (lines 266-275), `WHEEL_COUNT = 20` (line 276),
`setActiveWheel` (840-845), `adjustWheel` (847-856), and the scroll/click
handlers installed by `buildWheel` (908-927), which are the places that
consult `wheelsLocked`. -/

/-- The wheel symbol set: space, `@`, `.`, `-`, the 26 lowercase letters,
then the 10 digits (`src/plan.md` lines 266-275). -/
def CHARSET : List Char :=
  [' ', '@', '.', '-']
    ++ (List.range 26).map (fun i => Char.ofNat ('a'.toNat + i))
    ++ (List.range 10).map (fun i => Char.ofNat ('0'.toNat + i))

/-- Number of rotary wheels (`WHEEL_COUNT`, line 276). -/
def WHEEL_COUNT : Nat := 20

/-- The mutable frontend state touched by the wheel operations:
`wheelPositions` (line 282), `activeWheelIndex` (line 279) and
`wheelsLocked` (line 291).  Positions are indexed by the 20 wheels; the
source stores a JS array of numbers. -/
structure WheelState where
  positions : Fin WHEEL_COUNT → Int
  activeWheelIndex : Int
  wheelsLocked : Bool
deriving DecidableEq

/-- `setActiveWheel(index)` (lines 840-845):
`activeWheelIndex = ((index % WHEEL_COUNT) + WHEEL_COUNT) % WHEEL_COUNT`.
The remaining statements update the DOM only. -/
def setActiveWheel (index : Int) (st : WheelState) : WheelState :=
  { st with
    activeWheelIndex :=
      ((index.tmod (WHEEL_COUNT : Int)) + (WHEEL_COUNT : Int)).tmod
        (WHEEL_COUNT : Int) }

/-- `adjustWheel(index, delta)` (lines 847-856):
`wheelPositions[index] = (wheelPositions[index] + delta + CHARSET.length) %
CHARSET.length`.  The source takes a JS number index; every call site
passes an index of an existing wheel, so the embedding indexes by
`Fin WHEEL_COUNT`.  The remaining statements update the DOM only. -/
def adjustWheel (index : Fin WHEEL_COUNT) (delta : Int) (st : WheelState) :
    WheelState :=
  { st with
    positions := Function.update st.positions index
      ((st.positions index + delta + (CHARSET.length : Int)).tmod
        (CHARSET.length : Int)) }

/-- The `"wheel"` (scroll) event handler installed by `buildWheel`
(lines 908-916): when `wheelsLocked` it returns before touching state;
otherwise `setActiveWheel(index)` then `adjustWheel(index, direction)`
with `direction = deltaY > 0 ? 1 : -1`. -/
def wheelScrollHandler (index : Fin WHEEL_COUNT) (deltaYPositive : Bool)
    (st : WheelState) : WheelState :=
  if st.wheelsLocked then st
  else
    adjustWheel index (if deltaYPositive then 1 else -1)
      (setActiveWheel (index : Int) st)

/-- The `"click"` event handler installed by `buildWheel` (lines 918-927):
when `wheelsLocked` it returns before touching state; otherwise
`setActiveWheel(index)` then `adjustWheel(index, direction)` with
`direction = clientY < midpoint ? -1 : 1`. -/
def wheelClickHandler (index : Fin WHEEL_COUNT) (clientAboveMidpoint : Bool)
    (st : WheelState) : WheelState :=
  if st.wheelsLocked then st
  else
    adjustWheel index (if clientAboveMidpoint then -1 else 1)
      (setActiveWheel (index : Int) st)

/-- A dial operation, as named by the specification: `Adjust(index, delta)`
is `adjustWheel`, `SetActive(index)` is `setActiveWheel`. -/
inductive WheelOp where
  | adjust (index : Fin WHEEL_COUNT) (delta : Int)
  | setActive (index : Int)
deriving DecidableEq

/-- Apply one dial operation. -/
def applyWheelOp (st : WheelState) : WheelOp → WheelState
  | .adjust index delta => adjustWheel index delta st
  | .setActive index => setActiveWheel index st

/-- Apply a finite sequence of dial operations, oldest first. -/
def applyWheelOps (ops : List WheelOp) (st : WheelState) : WheelState :=
  ops.foldl applyWheelOp st

/-- The range invariant of the specification: every wheel position lies in
`[0, CHARSET.length)` and the active index lies in `[0, WHEEL_COUNT)`. -/
def WheelInv (st : WheelState) : Prop :=
  (∀ i : Fin WHEEL_COUNT,
      0 ≤ st.positions i ∧ st.positions i < (CHARSET.length : Int)) ∧
    0 ≤ st.activeWheelIndex ∧ st.activeWheelIndex < (WHEEL_COUNT : Int)

instance (st : WheelState) : Decidable (WheelInv st) := by
  unfold WheelInv; infer_instance

/-- The startup state: all positions zero, wheel 1 active, unlocked
(lines 279, 282, 291). -/
def initialWheelState : WheelState :=
  { positions := fun _ => 0, activeWheelIndex := 0, wheelsLocked := false }

/-! ## JSON values and `JSON.parse` (used by claim C4)

`parseBackgroundPromptDecision` calls the platform `JSON.parse`; it is
embedded here as a recursive-descent reader producing a `Json` value.
Numeric literals are kept as their lexemes (their value is never used by
the program under verification). -/

/-- A parsed JSON value. -/
inductive Json where
  | null
  | bool (b : Bool)
  | num (lexeme : String)
  | str (s : String)
  | arr (elems : List Json)
  | obj (fields : List (String × Json))

/-- JSON's whitespace characters (space, tab, line feed, carriage return). -/
def isJsonWs (c : Char) : Bool :=
  c = ' ' || c = '\t' || c = '\n' || c = '\r'

/-- Skip JSON whitespace. -/
def skipJsonWs (cs : List Char) : List Char :=
  cs.dropWhile isJsonWs

/-- Hexadecimal digit test for `\u` escapes. -/
def isHexDigitChar (c : Char) : Bool :=
  c.isDigit || ('a' ≤ c && c ≤ 'f') || ('A' ≤ c && c ≤ 'F')

/-- Read the body of a JSON string literal (the opening quote already
consumed), returning the decoded characters and the remainder.  `\uXXXX`
escapes are decoded through `Char.ofNat`. -/
def readJsonString (fuel : Nat) (cs : List Char) :
    Option (List Char × List Char) :=
  match fuel, cs with
  | 0, _ => none
  | _, [] => none
  | fuel + 1, c :: rest =>
    if c = '"' then
      some ([], rest)
    else if c = '\\' then
      match rest with
      | [] => none
      | e :: rest2 =>
        if e = 'u' then
          match rest2 with
          | h1 :: h2 :: h3 :: h4 :: rest3 =>
            if isHexDigitChar h1 && isHexDigitChar h2 && isHexDigitChar h3 &&
                isHexDigitChar h4 then
              let code :=
                hexVal h1 * 4096 + hexVal h2 * 256 + hexVal h3 * 16 + hexVal h4
              (readJsonString fuel rest3).map
                (fun p => (Char.ofNat code :: p.1, p.2))
            else none
          | _ => none
        else
          match jsonEscapeChar e with
          | some decoded =>
            (readJsonString fuel rest2).map (fun p => (decoded :: p.1, p.2))
          | none => none
    else if c.toNat < 32 then
      none
    else
      (readJsonString fuel rest).map (fun p => (c :: p.1, p.2))
where
  /-- Value of a hexadecimal digit. -/
  hexVal (c : Char) : Nat :=
    if c.isDigit then c.toNat - '0'.toNat
    else if 'a' ≤ c then c.toNat - 'a'.toNat + 10
    else c.toNat - 'A'.toNat + 10
  /-- Decode a single-character escape. -/
  jsonEscapeChar (e : Char) : Option Char :=
    if e = '"' then some '"'
    else if e = '\\' then some '\\'
    else if e = '/' then some '/'
    else if e = 'b' then some (Char.ofNat 8)
    else if e = 'f' then some (Char.ofNat 12)
    else if e = 'n' then some '\n'
    else if e = 'r' then some '\r'
    else if e = 't' then some '\t'
    else none

/-- Read a JSON number lexeme: `-? (0 | [1-9][0-9]*) (\.[0-9]+)?
([eE][+-]?[0-9]+)?`.  Returns the lexeme and the remainder. -/
def readJsonNumber (cs : List Char) : Option (List Char × List Char) :=
  let (sign, afterSign) :=
    match cs with
    | '-' :: rest => ([('-' : Char)], rest)
    | _ => ([], cs)
  match afterSign with
  | [] => none
  | d :: rest =>
    if d = '0' then
      let (frac, afterFrac) := readFrac rest
      match frac with
      | none => none
      | some fracDigits =>
        let (ex, afterEx) := readExp afterFrac
        match ex with
        | none => none
        | some exDigits =>
          some (sign ++ [d] ++ fracDigits ++ exDigits, afterEx)
    else if d.isDigit then
      let digits := rest.takeWhile Char.isDigit
      let afterInt := rest.dropWhile Char.isDigit
      let (frac, afterFrac) := readFrac afterInt
      match frac with
      | none => none
      | some fracDigits =>
        let (ex, afterEx) := readExp afterFrac
        match ex with
        | none => none
        | some exDigits =>
          some (sign ++ [d] ++ digits ++ fracDigits ++ exDigits, afterEx)
    else none
where
  /-- Optional fraction part; `some []` when absent, `none` on a malformed
  fraction. -/
  readFrac (cs : List Char) : Option (List Char) × List Char :=
    match cs with
    | '.' :: rest =>
      let digits := rest.takeWhile Char.isDigit
      if digits.isEmpty then (none, rest)
      else (some ('.' :: digits), rest.dropWhile Char.isDigit)
    | _ => (some [], cs)
  /-- Optional exponent part; `some []` when absent, `none` on a malformed
  exponent. -/
  readExp (cs : List Char) : Option (List Char) × List Char :=
    match cs with
    | e :: rest =>
      if e = 'e' || e = 'E' then
        let (sgn, afterSgn) :=
          match rest with
          | s :: rest2 => if s = '+' || s = '-' then ([s], rest2) else ([], rest)
          | [] => ([], rest)
        let digits := afterSgn.takeWhile Char.isDigit
        if digits.isEmpty then (none, afterSgn)
        else (some (e :: sgn ++ digits), afterSgn.dropWhile Char.isDigit)
      else (some [], e :: rest)
    | [] => (some [], [])

mutual

/-- Read one JSON value (leading whitespace already skipped). -/
def readJsonValue (fuel : Nat) (cs : List Char) :
    Option (Json × List Char) :=
  match fuel with
  | 0 => none
  | fuel + 1 =>
    match cs with
    | [] => none
    | c :: rest =>
      if c = '"' then
        (readJsonString (rest.length + 1) rest).map
          (fun p => (Json.str ⟨p.1⟩, p.2))
      else if c = '\x7b' then
        readJsonObject fuel (skipJsonWs rest) true
      else if c = '[' then
        readJsonArray fuel (skipJsonWs rest) true
      else if c = 't' then
        match rest with
        | 'r' :: 'u' :: 'e' :: rest2 => some (Json.bool true, rest2)
        | _ => none
      else if c = 'f' then
        match rest with
        | 'a' :: 'l' :: 's' :: 'e' :: rest2 => some (Json.bool false, rest2)
        | _ => none
      else if c = 'n' then
        match rest with
        | 'u' :: 'l' :: 'l' :: rest2 => some (Json.null, rest2)
        | _ => none
      else
        (readJsonNumber (c :: rest)).map (fun p => (Json.num ⟨p.1⟩, p.2))

/-- Read the members of a JSON object after `\x7b` (whitespace skipped).
`first` is true before the first member. -/
def readJsonObject (fuel : Nat) (cs : List Char) (first : Bool) :
    Option (Json × List Char) :=
  match fuel with
  | 0 => none
  | fuel + 1 =>
    match cs with
    | '\x7d' :: rest =>
      if first then some (Json.obj [], rest) else none
    | _ =>
      match readJsonMembers fuel cs with
      | some (fields, rest) => some (Json.obj fields, rest)
      | none => none

/-- Read a nonempty comma-separated list of `"key": value` members and the
closing `\x7d`. -/
def readJsonMembers (fuel : Nat) (cs : List Char) :
    Option (List (String × Json) × List Char) :=
  match fuel with
  | 0 => none
  | fuel + 1 =>
    match cs with
    | '"' :: rest =>
      match readJsonString (rest.length + 1) rest with
      | none => none
      | some (key, afterKey) =>
        match skipJsonWs afterKey with
        | ':' :: afterColon =>
          match readJsonValue fuel (skipJsonWs afterColon) with
          | none => none
          | some (value, afterValue) =>
            match skipJsonWs afterValue with
            | ',' :: afterComma =>
              match readJsonMembers fuel (skipJsonWs afterComma) with
              | none => none
              | some (fields, rest2) =>
                some ((⟨key⟩, value) :: fields, rest2)
            | '\x7d' :: rest2 => some ([(⟨key⟩, value)], rest2)
            | _ => none
        | _ => none
    | _ => none

/-- Read the elements of a JSON array after `[` (whitespace skipped).
`first` is true before the first element. -/
def readJsonArray (fuel : Nat) (cs : List Char) (first : Bool) :
    Option (Json × List Char) :=
  match fuel with
  | 0 => none
  | fuel + 1 =>
    match cs with
    | ']' :: rest =>
      if first then some (Json.arr [], rest) else none
    | _ =>
      match readJsonElems fuel cs with
      | some (elems, rest) => some (Json.arr elems, rest)
      | none => none

/-- Read a nonempty comma-separated list of array elements and the closing
`]`. -/
def readJsonElems (fuel : Nat) (cs : List Char) :
    Option (List Json × List Char) :=
  match fuel with
  | 0 => none
  | fuel + 1 =>
    match readJsonValue fuel cs with
    | none => none
    | some (value, afterValue) =>
      match skipJsonWs afterValue with
      | ',' :: afterComma =>
        match readJsonElems fuel (skipJsonWs afterComma) with
        | none => none
        | some (elems, rest2) => some (value :: elems, rest2)
      | ']' :: rest2 => some ([value], rest2)
      | _ => none

end

/-- `JSON.parse(text)`: parse one JSON value surrounded by optional
whitespace; `none` models a thrown `SyntaxError`. -/
def Json.parse (text : String) : Option Json :=
  match readJsonValue (text.length + 1) (skipJsonWs text.data) with
  | some (value, rest) =>
    if (skipJsonWs rest).isEmpty then some value else none
  | none => none

/-- Property access `fields.key` on a parsed JSON object.  `JSON.parse`
keeps the last of duplicate keys, hence the reversed search. -/
def Json.getField (fields : List (String × Json)) (key : String) :
    Option Json :=
  (fields.reverse.find? (fun p => p.1 = key)).map (fun p => p.2)

/-! ## Background-prompt decisions (claim C4)

`BackgroundPromptDecision` (`src/plan.md` lines 138-148) and
`parseBackgroundPromptDecision` (lines 1278-1335). -/

/-- A background-prompt decision: `Generate` with a prompt or `Skip` with a
reason; both carry the raw trimmed model reply. -/
inductive BackgroundPromptDecision where
  | generate (prompt : String) (rawText : String)
  | skip (reason : String) (rawText : String)
deriving DecidableEq

/-- `parseBackgroundPromptDecision(rawText)` (lines 1278-1335).

In the source, `JSON.parse` results that are not objects either make the
property access `parsed.status` throw (for `null`) — caught, falling
through to the final `generate` — or yield `undefined` fields, giving
`status = ""` and again the final `generate`; both collapse to the
catch-all branch here. -/
def parseBackgroundPromptDecision (rawText : String) :
    BackgroundPromptDecision :=
  let trimmed := jsTrim rawText
  if trimmed = "" then
    .skip "Model returned an empty response." trimmed
  else
    match Json.parse trimmed with
    | some (.obj fields) =>
      let status :=
        match Json.getField fields "status" with
        | some (.str s) => jsToLower s
        | _ => ""
      if status = "skip" then
        let reason :=
          match Json.getField fields "reason" with
          | some (.str r) =>
            if jsTrim r = "" then
              "Model indicated the transcript was not suitable."
            else jsTrim r
          | _ => "Model indicated the transcript was not suitable."
        .skip reason trimmed
      else if status = "generate" then
        let prompt :=
          match Json.getField fields "prompt" with
          | some (.str p) => jsTrim p
          | _ => ""
        if prompt = "" then
          .skip "Model indicated generation but omitted the prompt text."
            trimmed
        else
          .generate prompt trimmed
      else
        .generate trimmed trimmed
    | _ => .generate trimmed trimmed

/-- The decision grammar as the specification words it: an empty or
all-whitespace reply is `Skip` with the empty-response reason; a JSON
object reply with status `"skip"` is `Skip` carrying the supplied reason
(the default reason when it is missing or blank); status `"generate"` with
a non-empty prompt is `Generate` with that prompt; status `"generate"`
with an empty prompt is `Skip` with the omitted-prompt reason; any other
non-empty reply (malformed JSON, missing or unknown status) is `Generate`
with the raw trimmed reply. -/
def specDecisionGrammar (reply : String) : BackgroundPromptDecision :=
  let trimmed := jsTrim reply
  if trimmed = "" then
    .skip "Model returned an empty response." trimmed
  else
    match Json.parse trimmed with
    | some (.obj fields) =>
      match Json.getField fields "status" with
      | some (.str s) =>
        if jsToLower s = "skip" then
          let suppliedReason :=
            match Json.getField fields "reason" with
            | some (.str r) => jsTrim r
            | _ => ""
          if suppliedReason = "" then
            .skip "Model indicated the transcript was not suitable." trimmed
          else
            .skip suppliedReason trimmed
        else if jsToLower s = "generate" then
          let suppliedPrompt :=
            match Json.getField fields "prompt" with
            | some (.str p) => jsTrim p
            | _ => ""
          if suppliedPrompt = "" then
            .skip "Model indicated generation but omitted the prompt text."
              trimmed
          else
            .generate suppliedPrompt trimmed
        else
          .generate trimmed trimmed
      | _ => .generate trimmed trimmed
    | _ => .generate trimmed trimmed

/-! ## Exact fractions with kernel-reducible arithmetic

The gesture recognizer computes with JS numbers.  Mathlib's `ℚ` has
`@[irreducible]` arithmetic, which blocks kernel evaluation of concrete
frames, so the recognizer is embedded over `Q`: exact integer fractions
with a positive denominator.  Every operation used below preserves
positive denominators (division only ever divides by a positive count),
and the order relations are the usual cross-multiplied ones, so `Q`
computes exactly the rational values the JS floats approximate. -/

/-- An exact fraction `num / den`; all values built below keep `den`
positive. -/
structure Q where
  num : Int
  den : Int
deriving DecidableEq

instance : OfNat Q n := ⟨⟨n, 1⟩⟩

instance : Neg Q := ⟨fun a => ⟨-a.num, a.den⟩⟩

instance : Add Q := ⟨fun a b => ⟨a.num * b.den + b.num * a.den, a.den * b.den⟩⟩

instance : Sub Q := ⟨fun a b => ⟨a.num * b.den - b.num * a.den, a.den * b.den⟩⟩

instance : Mul Q := ⟨fun a b => ⟨a.num * b.num, a.den * b.den⟩⟩

instance : Div Q := ⟨fun a b => ⟨a.num * b.den, a.den * b.num⟩⟩

instance : LT Q := ⟨fun a b => a.num * b.den < b.num * a.den⟩

instance : LE Q := ⟨fun a b => a.num * b.den ≤ b.num * a.den⟩

instance (a b : Q) : Decidable (a < b) := Int.decLt _ _

instance (a b : Q) : Decidable (a ≤ b) := Int.decLe _ _

/-- The rational value of a fraction (for statements relating `Q` to
`ℚ`). -/
def Q.val (a : Q) : ℚ := (a.num : ℚ) / (a.den : ℚ)

/-- Embeds a count. -/
def Q.ofNat (n : Nat) : Q := ⟨n, 1⟩

/-- `Math.abs`. -/
def jsAbs (q : Q) : Q := if q < 0 then -q else q

/-! ## Gesture recognizer (claim C2)

`src/plan.md`: the gesture constants (lines 188-198), sample history
handling (1696-1707), `isPalmOpen` (1709-1754), `getRecentDisplacement`
(1823-1838), `handleClapDetection` (1840-1872) and `processHandLandmarks`
(1978-2118).

Coordinates and timestamps are exact fractions `Q`.  `Math.hypot` is passed in as
the parameter `hyp`.  Calls to `setGestureStatus` (UI text and the status
debounce timestamp) are omitted: they influence no command and no other
state read here.  The calls `adjustWheel(...)`, `setActiveWheel(...)` and
`handleClapSubmit()` are represented by the emitted `Command`; their
effect on the dial state is the separately embedded `adjustWheel` /
`setActiveWheel`. -/

/-- `GESTURE_HISTORY_WINDOW_MS` (line 188). -/
def GESTURE_HISTORY_WINDOW_MS : Q := 350

/-- `SWIPE_MIN_DISPLACEMENT` (line 190). -/
def SWIPE_MIN_DISPLACEMENT : Q := ⟨12, 100⟩

/-- `WHEEL_ADJUST_COOLDOWN_MS` (line 191). -/
def WHEEL_ADJUST_COOLDOWN_MS : Q := 400

/-- `WHEEL_SWITCH_COOLDOWN_MS` (line 192). -/
def WHEEL_SWITCH_COOLDOWN_MS : Q := 400

/-- `CLAP_COOLDOWN_MS` (line 193). -/
def CLAP_COOLDOWN_MS : Q := 2000

/-- `CLAP_DISTANCE_THRESHOLD` (line 194). -/
def CLAP_DISTANCE_THRESHOLD : Q := ⟨12, 100⟩

/-- `CLAP_DELTA_THRESHOLD` (line 195). -/
def CLAP_DELTA_THRESHOLD : Q := ⟨-6, 100⟩

/-- `CLAP_MAX_INTERVAL_MS` (line 196). -/
def CLAP_MAX_INTERVAL_MS : Q := 250

/-- `FINGER_EXTENSION_MIN_DELTA` (line 197). -/
def FINGER_EXTENSION_MIN_DELTA : Q := ⟨15, 1000⟩

/-- `PALM_OPEN_MIN_AVG_TIP_DISTANCE` (line 198). -/
def PALM_OPEN_MIN_AVG_TIP_DISTANCE : Q := ⟨18, 100⟩

/-- `HandLabel` (line 328). -/
inductive HandLabel where
  | Left
  | Right
deriving DecidableEq

/-- `HandSample` (lines 329-333). -/
structure HandSample where
  x : Q
  y : Q
  time : Q
deriving DecidableEq

/-- `HandObservation` (lines 334-337). -/
structure HandObservation where
  label : HandLabel
  centerX : Q
  centerY : Q
deriving DecidableEq

/-- `NormalizedLandmark` (lines 338-342). -/
structure NormalizedLandmark where
  x : Q
  y : Q
  z : Q
deriving DecidableEq

/-- One entry of `result.handednesses[i]`. -/
structure Handedness where
  categoryName : String
  displayName : String
deriving DecidableEq

/-- `HandLandmarkerResult` as consumed by `processHandLandmarks`: parallel
per-hand arrays of landmarks and handedness candidates. -/
structure HandLandmarkerResult where
  landmarks : List (List NormalizedLandmark)
  handednesses : List (List Handedness)
deriving DecidableEq

/-- The recognizer's mutable state: `handHistories` (lines 348-351),
`lastTwoHandDistance` (line 352), the `gestureState` cooldowns
(lines 353-357) and `gesturesLocked` (line 292). -/
structure GestureState where
  leftHistory : List HandSample
  rightHistory : List HandSample
  lastTwoHandDistance : Option (Q × Q)
  lastWheelAdjustTime : Q
  lastWheelSwitchTime : Q
  lastClapTime : Q
  gesturesLocked : Bool
deriving DecidableEq

/-- `handHistories[label]`. -/
def GestureState.history (st : GestureState) : HandLabel → List HandSample
  | .Left => st.leftHistory
  | .Right => st.rightHistory

/-- Replace `handHistories[label]`. -/
def GestureState.setHistory (st : GestureState) :
    HandLabel → List HandSample → GestureState
  | .Left, h => { st with leftHistory := h }
  | .Right, h => { st with rightHistory := h }

/-- `pushHandSample(label, sample)` (lines 1696-1703): append the sample,
then drop leading entries older than the 350 ms window. -/
def pushHandSample (label : HandLabel) (sample : HandSample)
    (st : GestureState) : GestureState :=
  let appended := st.history label ++ [sample]
  let cutoff := sample.time - GESTURE_HISTORY_WINDOW_MS
  st.setHistory label (appended.dropWhile (fun s => s.time < cutoff))

/-- `clearHandHistory(label)` (lines 1705-1707). -/
def clearHandHistory (label : HandLabel) (st : GestureState) : GestureState :=
  st.setHistory label []

/-- The four `[tip, pip]` landmark index pairs of `isPalmOpen`
(lines 1714-1719). -/
def fingerPairs : List (Nat × Nat) := [(8, 6), (12, 10), (16, 14), (20, 18)]

/-- `isPalmOpen(landmarks)` (lines 1709-1754): at least three of four
fingers extended, and (when a wrist landmark exists) average
fingertip-to-wrist distance at least the minimum. -/
def isPalmOpen (hyp : Q → Q → Q) (landmarks : List NormalizedLandmark) :
    Bool :=
  if landmarks.length = 0 then false
  else
    let extendedCount := fingerPairs.foldl
      (fun acc p =>
        match landmarks.get? p.1, landmarks.get? p.2 with
        | some tip, some pip =>
          if FINGER_EXTENSION_MIN_DELTA < pip.y - tip.y then acc + 1 else acc
        | _, _ => acc)
      0
    match landmarks.get? 0 with
    | none => decide (3 ≤ extendedCount)
    | some wrist =>
      let sumDist := fingerPairs.foldl
        (fun acc p =>
          match landmarks.get? p.1 with
          | some tip => acc + hyp (tip.x - wrist.x) (tip.y - wrist.y)
          | none => acc)
        (0 : Q)
      let count := fingerPairs.foldl
        (fun acc p =>
          match landmarks.get? p.1 with
          | some _ => acc + 1
          | none => acc)
        (0 : ℕ)
      let avgTipDistance := if 0 < count then sumDist / Q.ofNat count else sumDist
      decide (3 ≤ extendedCount) &&
        decide (PALM_OPEN_MIN_AVG_TIP_DISTANCE ≤ avgTipDistance)

/-- `getRecentDisplacement(history)` (lines 1823-1838): `(dx, dy,
elapsedMs)` between the oldest and newest sample, `none` when fewer than
two samples or a non-positive elapsed time. -/
def getRecentDisplacement (history : List HandSample) :
    Option (Q × Q × Q) :=
  if history.length < 2 then none
  else
    match history.head?, history.getLast? with
    | some first, some last =>
      let elapsedMs := last.time - first.time
      if elapsedMs ≤ 0 then none
      else some (last.x - first.x, last.y - first.y, elapsedMs)
    | _, _ => none

/-- `handleClapDetection(centers, now)` (lines 1840-1872).  Returns the
updated state and whether a clap fired. -/
def handleClapDetection (hyp : Q → Q → Q) (centers : List HandObservation)
    (now : Q) (st : GestureState) : GestureState × Bool :=
  match centers.find? (fun entry => entry.label = HandLabel.Left),
      centers.find? (fun entry => entry.label = HandLabel.Right) with
  | some left, some right =>
    let distance :=
      hyp (left.centerX - right.centerX) (left.centerY - right.centerY)
    match st.lastTwoHandDistance with
    | some (lastDistance, lastTime) =>
      if now - lastTime ≤ CLAP_MAX_INTERVAL_MS ∧
          distance - lastDistance ≤ CLAP_DELTA_THRESHOLD ∧
          distance ≤ CLAP_DISTANCE_THRESHOLD ∧
          CLAP_COOLDOWN_MS < now - st.lastClapTime then
        ({ st with lastClapTime := now, lastTwoHandDistance := none }, true)
      else
        ({ st with lastTwoHandDistance := some (distance, now) }, false)
    | none =>
      ({ st with lastTwoHandDistance := some (distance, now) }, false)
  | _, _ => ({ st with lastTwoHandDistance := none }, false)

/-- The emitted gesture commands: the wheel-spin pair, the wheel-switch
pair, and clap-to-submit. -/
inductive Command where
  | spinUp
  | spinDown
  | nextDial
  | prevDial
  | clap
deriving DecidableEq

/-- The label resolution of the per-hand loop (lines 2001-2008): `"Left"`
from either name field wins, then `"Right"`, otherwise no label. -/
def labelOfHandedness (h : Option Handedness) : Option HandLabel :=
  match h with
  | none => none
  | some entry =>
    if entry.categoryName = "Left" ∨ entry.displayName = "Left" then
      some HandLabel.Left
    else if entry.categoryName = "Right" ∨ entry.displayName = "Right" then
      some HandLabel.Right
    else none

/-- The hand center (lines 2023-2033): coordinate-wise mean over all
landmarks (`count = normalized.length || 1`). -/
def handCenter (landmarks : List NormalizedLandmark) : Q × Q :=
  let sum := landmarks.foldl
    (fun acc point => (acc.1 + point.x, acc.2 + point.y)) ((0 : Q), (0 : Q))
  let count : Q := if landmarks.length = 0 then 1 else Q.ofNat landmarks.length
  (sum.1 / count, sum.2 / count)

/-- Accumulator of the per-hand `forEach` (lines 2000-2037). -/
structure CollectAcc where
  st : GestureState
  seenLabels : List HandLabel
  observations : List HandObservation
  closedPalmDetected : Bool

/-- One iteration of the per-hand `forEach` (lines 2000-2037): resolve the
label, test palm openness (clearing the history of a closed hand), push
the open hand's center sample and record the observation. -/
def collectHand (hyp : Q → Q → Q) (now : Q) (acc : CollectAcc)
    (hand : List NormalizedLandmark × Option Handedness) : CollectAcc :=
  match labelOfHandedness hand.2 with
  | none => acc
  | some label =>
    let acc := { acc with seenLabels := acc.seenLabels ++ [label] }
    if isPalmOpen hyp hand.1 then
      let center := handCenter hand.1
      { acc with
        st := pushHandSample label
          { x := center.1, y := center.2, time := now } acc.st
        observations := acc.observations ++
          [{ label := label, centerX := center.1, centerY := center.2 }] }
    else
      { acc with
        st := clearHandHistory label acc.st
        closedPalmDetected := true }

/-- The vertical-swipe scan (lines 2058-2083): first observation whose
history displacement is within the window, at least the minimum, and
vertically dominant; negative `dy` is `SpinUp` ("Wheel up"), positive is
`SpinDown` ("Wheel down"). -/
def findVerticalSwipe (st : GestureState) :
    List HandObservation → Option Command
  | [] => none
  | obs :: rest =>
    match getRecentDisplacement (st.history obs.label) with
    | some (dx, dy, elapsedMs) =>
      if elapsedMs ≤ GESTURE_HISTORY_WINDOW_MS ∧
          SWIPE_MIN_DISPLACEMENT ≤ jsAbs dy ∧ jsAbs dx < jsAbs dy then
        if dy ≤ -SWIPE_MIN_DISPLACEMENT then some Command.spinUp
        else if SWIPE_MIN_DISPLACEMENT ≤ dy then some Command.spinDown
        else findVerticalSwipe st rest
      else findVerticalSwipe st rest
    | none => findVerticalSwipe st rest

/-- The horizontal-switch scan (lines 2085-2110): first observation whose
displacement is horizontally dominant; negative `dx` is `NextDial` ("Next
wheel"), positive is `PrevDial` ("Previous wheel"). -/
def findHorizontalSwipe (st : GestureState) :
    List HandObservation → Option Command
  | [] => none
  | obs :: rest =>
    match getRecentDisplacement (st.history obs.label) with
    | some (dx, dy, elapsedMs) =>
      if elapsedMs ≤ GESTURE_HISTORY_WINDOW_MS ∧
          SWIPE_MIN_DISPLACEMENT ≤ jsAbs dx ∧ jsAbs dy < jsAbs dx then
        if dx ≤ -SWIPE_MIN_DISPLACEMENT then some Command.nextDial
        else if SWIPE_MIN_DISPLACEMENT ≤ dx then some Command.prevDial
        else findHorizontalSwipe st rest
      else findHorizontalSwipe st rest
    | none => findHorizontalSwipe st rest

/-- The swipe and clap stage of `processHandLandmarks` (lines 2056-2118),
applied to the collected open-hand observations after the histories have
been updated: the cooldown-guarded vertical scan, the horizontal scan
(only when no vertical command fired), then clap detection. -/
def classifyOpenHands (hyp : Q → Q → Q) (now : Q)
    (observations : List HandObservation) (st1 : GestureState) :
    GestureState × List Command :=
  let (st2, vertCmd) :=
    if WHEEL_ADJUST_COOLDOWN_MS < now - st1.lastWheelAdjustTime then
      match findVerticalSwipe st1 observations with
      | some cmd => ({ st1 with lastWheelAdjustTime := now }, some cmd)
      | none => (st1, none)
    else (st1, none)
  let (st3, horizCmd) :=
    if vertCmd = none ∧
        WHEEL_SWITCH_COOLDOWN_MS < now - st2.lastWheelSwitchTime then
      match findHorizontalSwipe st2 observations with
      | some cmd => ({ st2 with lastWheelSwitchTime := now }, some cmd)
      | none => (st2, none)
    else (st2, none)
  let (st4, clapTriggered) :=
    handleClapDetection hyp observations now st3
  (st4,
    vertCmd.toList ++ horizCmd.toList ++
      (if clapTriggered then [Command.clap] else []))

/-- `processHandLandmarks(result, now)` (lines 1978-2118), returning the
updated recognizer state together with the commands emitted during the
frame, in emission order. -/
def processHandLandmarks (hyp : Q → Q → Q)
    (result : Option HandLandmarkerResult) (now : Q) (st : GestureState) :
    GestureState × List Command :=
  if st.gesturesLocked then (st, [])
  else
    match result with
    | none => (clearHandHistory .Right (clearHandHistory .Left
        { st with lastTwoHandDistance := none }), [])
    | some result =>
      if result.landmarks.length = 0 then
        (clearHandHistory .Right (clearHandHistory .Left
          { st with lastTwoHandDistance := none }), [])
      else
        let hands := result.landmarks.zip
          ((List.range result.landmarks.length).map
            (fun i => (result.handednesses.get? i).bind List.head?))
        let acc := hands.foldl (collectHand hyp now)
          { st := st, seenLabels := [], observations := [],
            closedPalmDetected := false }
        let st1 := [HandLabel.Left, HandLabel.Right].foldl
          (fun s label =>
            if label ∈ acc.seenLabels then s else clearHandHistory label s)
          acc.st
        if acc.observations.length = 0 then
          ({ st1 with lastTwoHandDistance := none }, [])
        else
          classifyOpenHands hyp now acc.observations st1

/-! ## Concrete gesture fixtures

A two-hand frame in which the left hand's history shows a downward
vertical swipe while the two palm centers have just rushed together:
used to evaluate `processHandLandmarks` on one concrete frame.  All
coordinates are axis-aligned so that every `Math.hypot` call in the frame
has a zero component. -/

/-- Stand-in for `Math.hypot` at concrete inputs: it returns exactly
`Math.hypot x y = sqrt (x^2 + y^2)` whenever one argument is zero, and
every distance computed in the fixtures below is of that form. -/
def axisHypot (x y : Q) : Q :=
  if x.num = 0 then jsAbs y else if y.num = 0 then jsAbs x else 0

/-- A landmark at `(x, y)` with `z = 0`. -/
def pt (x y : Q) : NormalizedLandmark := { x := x, y := y, z := 0 }

/-- An open hand at horizontal position `cx`: wrist at `y = 0.5`, the four
finger pips at `0.4`, the four tips at `0.3` (so each finger is extended
by `0.1 > 0.015` and each tip sits `0.2 ≥ 0.18` from the wrist), filler
landmarks at `0.25`; the 21-point mean is `(cx, 0.3)`. -/
def mkHand (cx : Q) : List NormalizedLandmark :=
  [ pt cx ⟨5, 10⟩, pt cx ⟨25, 100⟩, pt cx ⟨25, 100⟩, pt cx ⟨25, 100⟩,
    pt cx ⟨25, 100⟩, pt cx ⟨25, 100⟩, pt cx ⟨4, 10⟩, pt cx ⟨25, 100⟩,
    pt cx ⟨3, 10⟩, pt cx ⟨25, 100⟩, pt cx ⟨4, 10⟩, pt cx ⟨25, 100⟩,
    pt cx ⟨3, 10⟩, pt cx ⟨25, 100⟩, pt cx ⟨4, 10⟩, pt cx ⟨25, 100⟩,
    pt cx ⟨3, 10⟩, pt cx ⟨25, 100⟩, pt cx ⟨4, 10⟩, pt cx ⟨25, 100⟩,
    pt cx ⟨3, 10⟩ ]

/-- Frame at `t = 3000` ms: open left hand centered at `(0.2, 0.3)`, open
right hand centered at `(0.3, 0.3)`. -/
def clapSwipeFrame : HandLandmarkerResult :=
  { landmarks := [mkHand ⟨2, 10⟩, mkHand ⟨3, 10⟩],
    handednesses :=
      [ [{ categoryName := "Left", displayName := "Left" }],
        [{ categoryName := "Right", displayName := "Right" }] ] }

/-- Recognizer state before that frame, as left by a frame at
`t = 2900` ms: one history sample per hand (left `(0.1, 0.1)`, right
`(0.6, 0.1)`), inter-hand distance `0.5` recorded at `2900`, all
cooldowns clear. -/
def clapSwipeState : GestureState :=
  { leftHistory := [{ x := ⟨1, 10⟩, y := ⟨1, 10⟩, time := 2900 }],
    rightHistory := [{ x := ⟨6, 10⟩, y := ⟨1, 10⟩, time := 2900 }],
    lastTwoHandDistance := some (⟨5, 10⟩, 2900),
    lastWheelAdjustTime := 0,
    lastWheelSwitchTime := 0,
    lastClapTime := 0,
    gesturesLocked := false }

/-! ## Session and pipeline state (claims C1, C3, C7, C8)

The module-level flags of `src/plan.md`: `wheelsLocked`/`gesturesLocked`
(291-292), `autoTranscriptionEnabled`/`autoTranscriptionTimer`/
`autoAwaitingBackgroundImage` (288-290), `isTranscriptionInProgress`/
`isBackgroundImageInProgress` (181-182), `lastBackgroundPrompt` (161),
the Start/Stop button disabled flags, and the displayed background image
(`backgroundImageEl.src`).  The pending timer is modelled by the delay it
was armed with. -/

/-- The companion's session/pipeline flags. -/
structure AppState where
  wheelsLocked : Bool
  gesturesLocked : Bool
  autoTranscriptionEnabled : Bool
  autoTranscriptionTimer : Option Int
  autoAwaitingBackgroundImage : Bool
  isTranscriptionInProgress : Bool
  isBackgroundImageInProgress : Bool
  lastBackgroundPrompt : Option String
  displayedImage : Option String
  startBtnDisabled : Bool
  stopBtnDisabled : Bool
deriving DecidableEq

/-- `setWheelsLocked(locked)` (lines 419-433); besides this flag it only
updates DOM classes and logs. -/
def setWheelsLockedFn (locked : Bool) (st : AppState) : AppState :=
  { st with wheelsLocked := locked }

/-- `setGesturesLocked(locked)` (lines 435-457); besides this flag it
stops/starts the recognizer loop (part of the separately embedded
recognizer) and updates status text. -/
def setGesturesLockedFn (locked : Bool) (st : AppState) : AppState :=
  { st with gesturesLocked := locked }

/-- `clearAutoTranscriptionTimer()` (lines 733-738). -/
def clearAutoTranscriptionTimerFn (st : AppState) : AppState :=
  { st with autoTranscriptionTimer := none }

/-- `scheduleAutoTranscription(delayMs, reason)` (lines 740-761): no-op
when the loop is disabled; otherwise clears any pending timer and arms one
at `Math.max(0, delayMs)`. -/
def scheduleAutoTranscriptionFn (delayMs : Int) (st : AppState) : AppState :=
  if ¬st.autoTranscriptionEnabled then st
  else
    { st with
      autoTranscriptionTimer := some (if delayMs < 0 then 0 else delayMs) }

/-- `startAutoTranscriptionLoop(initialDelayMs)` (lines 763-771). -/
def startAutoTranscriptionLoopFn (initialDelayMs : Int) (st : AppState) :
    AppState :=
  let st1 :=
    if ¬st.autoTranscriptionEnabled then
      { st with
        autoTranscriptionEnabled := true
        autoAwaitingBackgroundImage := false }
    else st
  scheduleAutoTranscriptionFn initialDelayMs st1

/-- `stopAutoTranscriptionLoop()` (lines 773-782). -/
def stopAutoTranscriptionLoopFn (st : AppState) : AppState :=
  if ¬st.autoTranscriptionEnabled then st
  else
    clearAutoTranscriptionTimerFn
      { st with
        autoTranscriptionEnabled := false
        autoAwaitingBackgroundImage := false }

/-- `AUTO_TRANSCRIPTION_RETRY_DELAY_MS` (line 236). -/
def AUTO_TRANSCRIPTION_RETRY_DELAY_MS : Int := 1000

/-- `AUTO_TRANSCRIPTION_FALLBACK_DELAY_MS` (line 237). -/
def AUTO_TRANSCRIPTION_FALLBACK_DELAY_MS : Int := 1000

/-- `AUTO_TRANSCRIPTION_POST_IMAGE_DELAY_MS` (line 238). -/
def AUTO_TRANSCRIPTION_POST_IMAGE_DELAY_MS : Int := 300

/-- `stopAgent()` (lines 2328-2353).  `uiPresent` models the guard on the
three UI elements; `stopSucceeds` is the outcome of the awaited
`invoke("stop_agent")`.  On success the handler unlocks wheels and
gestures; the `catch` branch only logs; the `finally` branch stops the
auto loop again and re-enables the Start button. -/
def stopAgent (uiPresent : Bool) (stopSucceeds : Bool) (st : AppState) :
    AppState :=
  if ¬uiPresent then st
  else
    let st1 := stopAutoTranscriptionLoopFn st
    let st2 :=
      if stopSucceeds then
        setGesturesLockedFn false (setWheelsLockedFn false st1)
      else st1
    let st3 := stopAutoTranscriptionLoopFn st2
    { st3 with startBtnDisabled := false, stopBtnDisabled := true }

/-- `requestBackgroundImage(prompt)` (lines 1635-1694) collapsed over one
awaited render.  `renderResult` is the outcome of
`invoke("generate_background_image")`: `some dataUrl` on return, `none`
when it threw; a returned empty `dataUrl` takes the same error path.  The
`finally` block clears both flags and, when looping, schedules the
post-image delay. -/
def requestBackgroundImageFn (renderResult : Option String) (prompt : String)
    (st : AppState) : AppState :=
  if jsTrim prompt = "" then st
  else if st.isBackgroundImageInProgress then st
  else
    let st1 :=
      if st.autoTranscriptionEnabled then
        { st with autoAwaitingBackgroundImage := true }
      else st
    let st2 := { st1 with isBackgroundImageInProgress := true }
    let st3 :=
      match renderResult with
      | some dataUrl =>
        if dataUrl = "" then st2 else { st2 with displayedImage := some dataUrl }
      | none => st2
    let st4 :=
      { st3 with
        isBackgroundImageInProgress := false
        autoAwaitingBackgroundImage := false }
    if st4.autoTranscriptionEnabled then
      scheduleAutoTranscriptionFn AUTO_TRANSCRIPTION_POST_IMAGE_DELAY_MS st4
    else st4

/-- `handleVirtualBackgroundPrompt(transcript)` (lines 1517-1566).
`decisionOutcome` is the outcome of the awaited
`generateVirtualBackgroundPrompt` call (`Except.error` when it threw).  On
a `generate` decision the handler sets `lastBackgroundPrompt` to the
decision's prompt and then fires `requestBackgroundImage`; `skip` and the
`catch` branch change status text only. -/
def handleVirtualBackgroundPrompt
    (decisionOutcome : Except Unit BackgroundPromptDecision)
    (renderResult : Option String) (transcript : String) (st : AppState) :
    AppState :=
  if jsTrim transcript = "" then st
  else
    match decisionOutcome with
    | .ok (.generate prompt _) =>
      requestBackgroundImageFn renderResult prompt
        { st with lastBackgroundPrompt := some prompt }
    | .ok (.skip _ _) => st
    | .error _ => st

/-! ## Interleaving model of capture and render cycles (claims C7, C8)

The capture pipeline's single-flight behaviour is modelled as a state
machine whose atomic steps are the code between the `await` suspension
points that touch the two guards:

* `captureStart` — `triggerTranscriptionCapture` from entry up to and
  including the recording start (lines 1337-1393): the `captureBusy`
  rejection, the mic-unavailable and missing-button early exits (each of
  which resets the guard and reschedules), or the recording launch.
* `captureEnd` — the `finally` block of `triggerTranscriptionCapture`
  (lines 1500-1514).
* `renderStart` — `requestBackgroundImage` from entry up to the render
  call (lines 1635-1656): the empty-prompt and `renderBusy` rejections or
  the render launch.
* `renderEnd` — the `finally` block of `requestBackgroundImage`
  (lines 1684-1693).
* `loopStart` / `loopStop` — `startAutoTranscriptionLoop` /
  `stopAutoTranscriptionLoop`.

`capturesInFlight` and `rendersInFlight` are ghost counters of the
Recording→Deciding segments and render calls currently running. -/

/-- Ghost counters for the interleaving model. -/
structure InFlight where
  captures : Nat
  renders : Nat
deriving DecidableEq

/-- One atomic step of the interleaving model. -/
inductive PipeEvent where
  | captureStart (micOk : Bool) (buttonPresent : Bool)
  | captureEnd
  | renderStart (prompt : String)
  | renderEnd
  | loopStart (initialDelayMs : Int)
  | loopStop

/-- Apply one event, following the corresponding source lines. -/
def pipeStep (s : AppState × InFlight) (ev : PipeEvent) :
    AppState × InFlight :=
  match ev with
  | .captureStart micOk buttonPresent =>
    let (st, k) := s
    if st.isTranscriptionInProgress then
      (if st.autoTranscriptionEnabled then
          scheduleAutoTranscriptionFn AUTO_TRANSCRIPTION_RETRY_DELAY_MS st
        else st, k)
    else
      let st1 :=
        { st with
          autoAwaitingBackgroundImage := false
          isTranscriptionInProgress := true }
      if ¬micOk ∨ ¬buttonPresent then
        let st2 := { st1 with isTranscriptionInProgress := false }
        (if st2.autoTranscriptionEnabled then
            scheduleAutoTranscriptionFn AUTO_TRANSCRIPTION_RETRY_DELAY_MS st2
          else st2, k)
      else
        (st1, { k with captures := k.captures + 1 })
  | .captureEnd =>
    let (st, k) := s
    let st1 := { st with isTranscriptionInProgress := false }
    (if st1.autoTranscriptionEnabled ∧ ¬st1.autoAwaitingBackgroundImage then
        scheduleAutoTranscriptionFn AUTO_TRANSCRIPTION_FALLBACK_DELAY_MS st1
      else st1, { k with captures := k.captures - 1 })
  | .renderStart prompt =>
    let (st, k) := s
    if jsTrim prompt = "" then (st, k)
    else if st.isBackgroundImageInProgress then (st, k)
    else
      let st1 :=
        if st.autoTranscriptionEnabled then
          { st with autoAwaitingBackgroundImage := true }
        else st
      ({ st1 with isBackgroundImageInProgress := true },
        { k with renders := k.renders + 1 })
  | .renderEnd =>
    let (st, k) := s
    let st1 :=
      { st with
        isBackgroundImageInProgress := false
        autoAwaitingBackgroundImage := false }
    (if st1.autoTranscriptionEnabled then
        scheduleAutoTranscriptionFn AUTO_TRANSCRIPTION_POST_IMAGE_DELAY_MS st1
      else st1, { k with renders := k.renders - 1 })
  | .loopStart d =>
    let (st, k) := s
    (startAutoTranscriptionLoopFn d st, k)
  | .loopStop =>
    let (st, k) := s
    (stopAutoTranscriptionLoopFn st, k)

/-- Apply a sequence of events, oldest first. -/
def pipeRun (evs : List PipeEvent) (s : AppState × InFlight) :
    AppState × InFlight :=
  evs.foldl pipeStep s

/-- The startup pipeline state (lines 181-182, 285-292): nothing running,
loop disabled, no timer. -/
def initialAppState : AppState :=
  { wheelsLocked := false
    gesturesLocked := false
    autoTranscriptionEnabled := false
    autoTranscriptionTimer := none
    autoAwaitingBackgroundImage := false
    isTranscriptionInProgress := false
    isBackgroundImageInProgress := false
    lastBackgroundPrompt := none
    displayedImage := none
    startBtnDisabled := true
    stopBtnDisabled := true }

/-- Coupling invariant: each ghost counter mirrors its single-flight
guard. -/
def PipeInv (s : AppState × InFlight) : Prop :=
  s.2.captures = (if s.1.isTranscriptionInProgress then 1 else 0) ∧
    s.2.renders = (if s.1.isBackgroundImageInProgress then 1 else 0)

instance (s : AppState × InFlight) : Decidable (PipeInv s) := by
  unfold PipeInv; infer_instance

/-! ## Hub agent registration (claim C10)

`src/hub/index.js`: `deliverDefaultNanobananaKey` (lines 70-113) and the
`POST /api/register-agent` handler (lines 170-233). -/

/-- `maxAttempts` of `deliverDefaultNanobananaKey` (line 81). -/
def DELIVERY_MAX_ATTEMPTS : Nat := 15

/-- `deliverDefaultNanobananaKey(tunnelUrl)` (lines 70-113) as a success
predicate.  `secretConfigured` models whether either environment secret is
set after trimming; `attemptOk i` is the outcome of the `i`-th
`axios.post` try.  The loop makes up to 15 tries and returns on the first
success, so the call succeeds exactly when the secret is configured and
some of the first 15 tries succeeds; otherwise it throws. -/
def deliverDefaultNanobananaKey (secretConfigured : Bool)
    (attemptOk : Nat → Bool) : Bool :=
  secretConfigured && (List.range DELIVERY_MAX_ATTEMPTS).any attemptOk

/-- The request body of `POST /api/register-agent` (lines 171-176).
`screenName` is `none` for a non-string value; an absent `tunnelUrl` is
the empty string (both are falsy in the guard). -/
structure RegisterAgentRequest where
  screenName : Option String
  tunnelUrl : String
  requiresNanobananaKey : Bool
  hasLocalNanobananaKey : Bool

/-- What the handler did: the HTTP status it responded with, whether the
Firestore record was written, and whether a cleanup delete was
attempted. -/
structure RegisterAgentOutcome where
  status : Nat
  recordWritten : Bool
  deleteAttempted : Bool
deriving DecidableEq

/-- The `POST /api/register-agent` handler (lines 170-233).  `setOk` is
the outcome of the awaited `agentRef.set` (`false` → the outer `catch`
responds 500).  A failed cleanup delete is swallowed (lines 213-218), so
the outcome does not depend on the delete's own success. -/
def registerAgentHandler (req : RegisterAgentRequest) (setOk : Bool)
    (secretConfigured : Bool) (attemptOk : Nat → Bool) :
    RegisterAgentOutcome :=
  let normalizedScreenName := hubNormalizeScreenName req.screenName
  if normalizedScreenName = "" ∨ req.tunnelUrl = "" then
    { status := 400, recordWritten := false, deleteAttempted := false }
  else if ¬setOk then
    { status := 500, recordWritten := false, deleteAttempted := false }
  else
    let needsDefaultNanobananaKey :=
      req.requiresNanobananaKey && !req.hasLocalNanobananaKey
    if needsDefaultNanobananaKey then
      if deliverDefaultNanobananaKey secretConfigured attemptOk then
        { status := 200, recordWritten := true, deleteAttempted := false }
      else
        { status := 500, recordWritten := true, deleteAttempted := true }
    else
      { status := 200, recordWritten := true, deleteAttempted := false }

/-! ## Concrete fixture states used by the theorems -/

/-- A locked wheel state with all positions zero. -/
def lockedWheelState : WheelState :=
  { positions := fun _ => 0, activeWheelIndex := 0, wheelsLocked := true }

/-- An active session: locks held, auto-loop running with a pending
timer. -/
def activeSessionState : AppState :=
  { wheelsLocked := true
    gesturesLocked := true
    autoTranscriptionEnabled := true
    autoTranscriptionTimer := some 500
    autoAwaitingBackgroundImage := false
    isTranscriptionInProgress := false
    isBackgroundImageInProgress := false
    lastBackgroundPrompt := none
    displayedImage := none
    startBtnDisabled := true
    stopBtnDisabled := false }

/-- A state mid-session with a previously accepted prompt and a render in
flight. -/
def renderBusyPromptState : AppState :=
  { activeSessionState with
    lastBackgroundPrompt := some "old prompt"
    isBackgroundImageInProgress := true }

/-- A state with a capture segment in flight. -/
def captureBusyState : AppState :=
  { activeSessionState with isTranscriptionInProgress := true }

/-- A state with a render in flight. -/
def renderBusyState : AppState :=
  { activeSessionState with isBackgroundImageInProgress := true }

/-- The event trace in which cycle 1's render legally overlaps cycle 2's
capture segment: the loop starts, cycle 1 records and starts a render,
cycle 1's capture segment ends, and cycle 2's capture starts while the
render is still in flight. -/
def overlapTrace : List PipeEvent :=
  [ .loopStart 500, .captureStart true true, .renderStart "a lake",
    .captureEnd, .captureStart true true ]

/-! ## Structural lemmas about per-frame command emission -/

theorem findVerticalSwipe_mem (st : GestureState) :
    ∀ (obs : List HandObservation) (c : Command),
      findVerticalSwipe st obs = some c →
      c = Command.spinUp ∨ c = Command.spinDown := by
  intro obs
  induction obs with
  | nil => intro c h; simp [findVerticalSwipe] at h
  | cons o rest ih =>
    intro c h
    unfold findVerticalSwipe at h
    split at h
    · split at h
      · split at h
        · exact Or.inl (Option.some.inj h).symm
        · split at h
          · exact Or.inr (Option.some.inj h).symm
          · exact ih c h
      · exact ih c h
    · exact ih c h

theorem findHorizontalSwipe_mem (st : GestureState) :
    ∀ (obs : List HandObservation) (c : Command),
      findHorizontalSwipe st obs = some c →
      c = Command.nextDial ∨ c = Command.prevDial := by
  intro obs
  induction obs with
  | nil => intro c h; simp [findHorizontalSwipe] at h
  | cons o rest ih =>
    intro c h
    unfold findHorizontalSwipe at h
    split at h
    · split at h
      · split at h
        · exact Or.inl (Option.some.inj h).symm
        · split at h
          · exact Or.inr (Option.some.inj h).symm
          · exact ih c h
      · exact ih c h
    · exact ih c h


theorem classifyOpenHands_shape (hyp : Q → Q → Q) (now : Q)
    (observations : List HandObservation) (st1 : GestureState) :
    ∃ (swipe : Option Command) (clapFired : Bool),
      (classifyOpenHands hyp now observations st1).2 =
        swipe.toList ++ (if clapFired then [Command.clap] else []) ∧
      (∀ c, swipe = some c → c ≠ Command.clap) := by
  by_cases hcv : WHEEL_ADJUST_COOLDOWN_MS < now - st1.lastWheelAdjustTime
  · rcases hv : findVerticalSwipe st1 observations with _ | cmd
    · by_cases hch : WHEEL_SWITCH_COOLDOWN_MS < now - st1.lastWheelSwitchTime
      · rcases hh : findHorizontalSwipe st1 observations with _ | cmd2
        · exact ⟨none, (handleClapDetection hyp observations now st1).2,
            by simp [classifyOpenHands, hcv, hv, hch, hh],
            fun c h => by cases h⟩
        · refine ⟨some cmd2,
            (handleClapDetection hyp observations now
              { st1 with lastWheelSwitchTime := now }).2,
            by simp [classifyOpenHands, hcv, hv, hch, hh],
            fun c h => ?_⟩
          cases h
          rcases findHorizontalSwipe_mem st1 observations cmd2 hh with h2 | h2 <;>
            simp [h2]
      · exact ⟨none, (handleClapDetection hyp observations now st1).2,
          by simp [classifyOpenHands, hcv, hv, hch],
          fun c h => by cases h⟩
    · refine ⟨some cmd,
        (handleClapDetection hyp observations now
          { st1 with lastWheelAdjustTime := now }).2,
        by simp [classifyOpenHands, hcv, hv],
        fun c h => ?_⟩
      cases h
      rcases findVerticalSwipe_mem st1 observations cmd hv with h2 | h2 <;>
        simp [h2]
  · by_cases hch : WHEEL_SWITCH_COOLDOWN_MS < now - st1.lastWheelSwitchTime
    · rcases hh : findHorizontalSwipe st1 observations with _ | cmd2
      · exact ⟨none, (handleClapDetection hyp observations now st1).2,
          by simp [classifyOpenHands, hcv, hch, hh],
          fun c h => by cases h⟩
      · refine ⟨some cmd2,
          (handleClapDetection hyp observations now
            { st1 with lastWheelSwitchTime := now }).2,
          by simp [classifyOpenHands, hcv, hch, hh],
          fun c h => ?_⟩
        cases h
        rcases findHorizontalSwipe_mem st1 observations cmd2 hh with h2 | h2 <;>
          simp [h2]
    · exact ⟨none, (handleClapDetection hyp observations now st1).2,
        by simp [classifyOpenHands, hcv, hch],
        fun c h => by cases h⟩


/-! ## Arithmetic and invariant helper lemmas -/

theorem tmod_lower_bound (a b : Int) (hb : 0 < b) : -b < a.tmod b := by
  rcases le_or_lt 0 a with ha | ha
  · have h1 : 0 ≤ a.tmod b := Int.tmod_nonneg b ha
    omega
  · have h3 : a.tmod b = -((-a).tmod b) := by
      rw [Int.tmod_def, Int.tmod_def, Int.neg_tdiv]; ring
    have h2 : (-a).tmod b < b := Int.tmod_lt_of_pos _ hb
    omega

theorem CHARSET_length_eq : (CHARSET.length : Int) = 40 := by decide

theorem WheelInv_setActiveWheel (i : Int) (st : WheelState) (h : WheelInv st) :
    WheelInv (setActiveWheel i st) := by
  obtain ⟨hpos, -, -⟩ := h
  refine ⟨hpos, ?_, ?_⟩
  · apply Int.tmod_nonneg
    have := tmod_lower_bound i (WHEEL_COUNT : Int) (by decide)
    omega
  · exact Int.tmod_lt_of_pos _ (by decide)

theorem WheelInv_adjustWheel (idx : Fin WHEEL_COUNT) (delta : Int)
    (st : WheelState) (h : WheelInv st)
    (hd : -(CHARSET.length : Int) ≤ delta) :
    WheelInv (adjustWheel idx delta st) := by
  obtain ⟨hpos, hai⟩ := h
  refine ⟨?_, hai⟩
  intro i
  by_cases hi : i = idx
  · subst hi
    simp only [adjustWheel, Function.update_same]
    constructor
    · apply Int.tmod_nonneg
      have := (hpos i).1
      omega
    · exact Int.tmod_lt_of_pos _ (by decide)
  · simp only [adjustWheel, Function.update_noteq hi]
    exact hpos i

theorem sched_guards (d : Int) (st : AppState) :
    (scheduleAutoTranscriptionFn d st).isTranscriptionInProgress =
        st.isTranscriptionInProgress ∧
      (scheduleAutoTranscriptionFn d st).isBackgroundImageInProgress =
        st.isBackgroundImageInProgress := by
  simp only [scheduleAutoTranscriptionFn]
  split_ifs <;> exact ⟨rfl, rfl⟩

theorem loopStart_guards (d : Int) (st : AppState) :
    (startAutoTranscriptionLoopFn d st).isTranscriptionInProgress =
        st.isTranscriptionInProgress ∧
      (startAutoTranscriptionLoopFn d st).isBackgroundImageInProgress =
        st.isBackgroundImageInProgress := by
  simp only [startAutoTranscriptionLoopFn, scheduleAutoTranscriptionFn]
  split_ifs <;> exact ⟨rfl, rfl⟩

theorem loopStop_guards (st : AppState) :
    (stopAutoTranscriptionLoopFn st).isTranscriptionInProgress =
        st.isTranscriptionInProgress ∧
      (stopAutoTranscriptionLoopFn st).isBackgroundImageInProgress =
        st.isBackgroundImageInProgress := by
  simp only [stopAutoTranscriptionLoopFn, clearAutoTranscriptionTimerFn]
  split_ifs <;> exact ⟨rfl, rfl⟩

theorem PipeInv_step (s : AppState × InFlight) (ev : PipeEvent)
    (h : PipeInv s) : PipeInv (pipeStep s ev) := by
  obtain ⟨hc, hr⟩ := h
  obtain ⟨st, k⟩ := s
  cases ev with
  | captureStart micOk buttonPresent =>
    by_cases hb : st.isTranscriptionInProgress
    · refine ⟨?_, ?_⟩ <;>
        simp_all [pipeStep, PipeInv, sched_guards] <;>
        split_ifs <;>
        simp_all [sched_guards]
    · refine ⟨?_, ?_⟩ <;>
        simp_all [pipeStep, PipeInv, sched_guards] <;>
        split_ifs <;>
        simp_all [sched_guards]
  | captureEnd =>
    refine ⟨?_, ?_⟩ <;>
      simp_all [pipeStep, PipeInv, sched_guards] <;>
      split_ifs <;>
      simp_all [sched_guards]
  | renderStart prompt =>
    refine ⟨?_, ?_⟩ <;>
      simp_all [pipeStep, PipeInv] <;>
      split_ifs <;>
      simp_all
  | renderEnd =>
    refine ⟨?_, ?_⟩ <;>
      simp_all [pipeStep, PipeInv, sched_guards] <;>
      split_ifs <;>
      simp_all [sched_guards]
  | loopStart d =>
    exact ⟨by simp_all [pipeStep, PipeInv, (loopStart_guards d st).1],
      by simp_all [pipeStep, PipeInv, (loopStart_guards d st).2]⟩
  | loopStop =>
    exact ⟨by simp_all [pipeStep, PipeInv, (loopStop_guards st).1],
      by simp_all [pipeStep, PipeInv, (loopStop_guards st).2]⟩

theorem PipeInv_run (evs : List PipeEvent) (s : AppState × InFlight)
    (h : PipeInv s) : PipeInv (pipeRun evs s) := by
  induction evs generalizing s with
  | nil => exact h
  | cons ev rest ih => exact ih _ (PipeInv_step s ev h)

theorem parseDecision_eq_grammar (reply : String) :
    parseBackgroundPromptDecision reply = specDecisionGrammar reply := by
  unfold parseBackgroundPromptDecision specDecisionGrammar
  by_cases h : jsTrim reply = ""
  · simp only [h, reduceIte]
  · simp only [if_neg h]
    cases hp : Json.parse (jsTrim reply) with
    | none => rfl
    | some j =>
      cases j with
      | obj fields =>
        have hns : ¬("" : String) = "skip" := by decide
        have hng : ¬("" : String) = "generate" := by decide
        have hgns : ¬("generate" : String) = "skip" := by decide
        cases hs : Json.getField fields "status" with
        | none => simp only [hs, if_neg hns, if_neg hng]
        | some sv =>
          cases sv with
          | str s =>
            simp only [hs]
            by_cases hskip : jsToLower s = "skip"
            · simp only [hskip, if_pos rfl, eq_self_iff_true, ite_true]
              cases hr : Json.getField fields "reason" with
              | none => simp only [hr, if_pos rfl, eq_self_iff_true, ite_true]
              | some rv =>
                cases rv with
                | str r =>
                  by_cases hrr : jsTrim r = ""
                  · simp only [hr, hrr, if_pos rfl, eq_self_iff_true,
                      ite_true]
                  · simp only [hr, if_neg hrr]
                | null =>
                  simp only [hr, if_pos rfl, eq_self_iff_true, ite_true]
                | bool b =>
                  simp only [hr, if_pos rfl, eq_self_iff_true, ite_true]
                | num l =>
                  simp only [hr, if_pos rfl, eq_self_iff_true, ite_true]
                | arr es =>
                  simp only [hr, if_pos rfl, eq_self_iff_true, ite_true]
                | obj fs =>
                  simp only [hr, if_pos rfl, eq_self_iff_true, ite_true]
            · by_cases hgen : jsToLower s = "generate"
              · simp only [hgen, if_neg hgns, if_pos rfl, eq_self_iff_true,
                  ite_true]
              · simp only [if_neg hskip, if_neg hgen]
          | null => simp only [hs, if_neg hns, if_neg hng]
          | bool b => simp only [hs, if_neg hns, if_neg hng]
          | num l => simp only [hs, if_neg hns, if_neg hng]
          | arr es => simp only [hs, if_neg hns, if_neg hng]
          | obj fs => simp only [hs, if_neg hns, if_neg hng]
      | null => rfl
      | bool b => rfl
      | num l => rfl
      | str s => rfl
      | arr es => rfl

/-! ## Claim theorems -/

/-- Claim C1, counterexample: when the awaited `stop_agent` invocation
fails, `stopAgent` leaves `wheelsLocked` and `gesturesLocked` set — the
local unlock IS gated on the remote response, contradicting the claim
that both flags are false regardless of the remote outcome. -/
theorem stopAgent_keeps_locks_on_remote_failure :
    activeSessionState.wheelsLocked = true ∧
      (stopAgent true false activeSessionState).wheelsLocked = true ∧
      (stopAgent true false activeSessionState).gesturesLocked = true ∧
      ¬((stopAgent true false activeSessionState).wheelsLocked = false ∧
        (stopAgent true false activeSessionState).gesturesLocked = false) := by
  decide

/-- Claim C1, amended: `stopAgent` always stops the auto-loop (and clears
the pending timer armed while the loop was enabled), but it unlocks dials
and gestures only when the remote `stop_agent` invocation succeeds; on a
remote failure both lock flags keep their previous values. -/
theorem stopAgent_unlocks_only_on_success :
    (∀ st : AppState,
        (stopAgent true true st).wheelsLocked = false ∧
        (stopAgent true true st).gesturesLocked = false) ∧
      (∀ (st : AppState) (ok : Bool),
        (stopAgent true ok st).autoTranscriptionEnabled = false) ∧
      (∀ (st : AppState) (ok : Bool), st.autoTranscriptionEnabled = true →
        (stopAgent true ok st).autoTranscriptionTimer = none) ∧
      (∀ st : AppState,
        (stopAgent true false st).wheelsLocked = st.wheelsLocked ∧
        (stopAgent true false st).gesturesLocked = st.gesturesLocked) := by
  refine ⟨fun st => ?_, fun st ok => ?_, fun st ok h => ?_, fun st => ?_⟩ <;>
    simp only [stopAgent, stopAutoTranscriptionLoopFn,
      clearAutoTranscriptionTimerFn, setWheelsLockedFn, setGesturesLockedFn,
      Bool.not_true, Bool.not_false] <;>
    split_ifs <;> simp_all

/-- Claim C1, witness: stopping the concrete active session with a
successful remote call clears the pending auto-loop timer. -/
theorem stopAgent_unlocks_only_on_success_witness :
    (stopAgent true true activeSessionState).autoTranscriptionTimer = none :=
  stopAgent_unlocks_only_on_success.2.2.1 activeSessionState true rfl

/-- Claim C2, counterexample: on the concrete frame `clapSwipeFrame` in
state `clapSwipeState`, `processHandLandmarks` emits both a `SpinDown`
(from the left hand's vertical swipe) and a `Clap` (the clap check runs
regardless of `gestureHandled`), so a frame can emit two commands and a
swipe does not suppress a same-frame clap. -/
theorem swipe_and_clap_same_frame :
    (processHandLandmarks axisHypot (some clapSwipeFrame) 3000
        clapSwipeState).2 = [Command.spinDown, Command.clap] ∧
      ¬(processHandLandmarks axisHypot (some clapSwipeFrame) 3000
          clapSwipeState).2.length ≤ 1 := by
  decide

/-- Claim C2, amended: every processed frame emits at most one spin/switch
command (the vertical scan has priority over the horizontal one, which
runs only when no vertical command fired), and independently at most one
`Clap`; the commands of a frame are always one optional non-clap command
followed by an optional `Clap`, so a frame emits at most two commands and
clap is not suppressed by a same-frame swipe. -/
theorem frame_command_shape (hyp : Q → Q → Q)
    (result : Option HandLandmarkerResult) (now : Q) (st : GestureState) :
    ∃ (swipe : Option Command) (clapFired : Bool),
      (processHandLandmarks hyp result now st).2 =
        swipe.toList ++ (if clapFired then [Command.clap] else []) ∧
      (∀ c, swipe = some c → c ≠ Command.clap) := by
  unfold processHandLandmarks
  split
  · exact ⟨none, false, rfl, fun c h => by cases h⟩
  · split
    · exact ⟨none, false, rfl, fun c h => by cases h⟩
    · split
      · exact ⟨none, false, rfl, fun c h => by cases h⟩
      · lift_lets
        extract_lets hands acc st1
        split
        · exact ⟨none, false, rfl, fun c h => by cases h⟩
        · exact classifyOpenHands_shape hyp now _ _

/-- Claim C3, counterexample: `handleVirtualBackgroundPrompt` assigns
`lastBackgroundPrompt` before calling `requestBackgroundImage`, so the
prompt of a `Generate` decision replaces the previous value even when the
render request is rejected because another render is in flight, and even
when the render fails — contradicting the claim that the update happens
only on render success. -/
theorem lastPrompt_updated_before_render :
    renderBusyPromptState.lastBackgroundPrompt = some "old prompt" ∧
      renderBusyPromptState.isBackgroundImageInProgress = true ∧
      (handleVirtualBackgroundPrompt
          (.ok (BackgroundPromptDecision.generate "new prompt" "new prompt"))
          none "hello there" renderBusyPromptState).lastBackgroundPrompt =
        some "new prompt" ∧
      (handleVirtualBackgroundPrompt
          (.ok (BackgroundPromptDecision.generate "new prompt" "new prompt"))
          none "hello there"
          { renderBusyPromptState with
            isBackgroundImageInProgress := false }).lastBackgroundPrompt =
        some "new prompt" := by
  decide

/-- Claim C3, amended: for a non-blank transcript, a `Generate` decision
always sets `lastBackgroundPrompt` to the decision's prompt, before and
independently of the render outcome (success, failure, or busy
rejection); `Skip` decisions, decision-call failures, and
`requestBackgroundImage` itself never change `lastBackgroundPrompt`. -/
theorem lastPrompt_follows_generate_decision :
    (∀ (renderResult : Option String) (transcript : String) (st : AppState)
        (prompt raw : String), jsTrim transcript ≠ "" →
        (handleVirtualBackgroundPrompt
            (.ok (BackgroundPromptDecision.generate prompt raw)) renderResult
            transcript st).lastBackgroundPrompt = some prompt) ∧
      (∀ (renderResult : Option String) (transcript : String) (st : AppState)
          (reason raw : String),
        (handleVirtualBackgroundPrompt
            (.ok (BackgroundPromptDecision.skip reason raw)) renderResult
            transcript st).lastBackgroundPrompt = st.lastBackgroundPrompt) ∧
      (∀ (renderResult : Option String) (transcript : String) (st : AppState)
          (e : Unit),
        (handleVirtualBackgroundPrompt (.error e) renderResult transcript
            st).lastBackgroundPrompt = st.lastBackgroundPrompt) ∧
      (∀ (renderResult : Option String) (prompt : String) (st : AppState),
        (requestBackgroundImageFn renderResult prompt
            st).lastBackgroundPrompt = st.lastBackgroundPrompt) := by
  have hreq : ∀ (renderResult : Option String) (prompt : String)
      (st : AppState),
      (requestBackgroundImageFn renderResult prompt st).lastBackgroundPrompt =
        st.lastBackgroundPrompt := by
    intro renderResult prompt st
    simp only [requestBackgroundImageFn, scheduleAutoTranscriptionFn]
    split_ifs <;> try rfl
    all_goals (cases renderResult with
      | none => simp_all
      | some u => by_cases hu : u = "" <;> simp_all)
  refine ⟨?_, ?_, ?_, hreq⟩
  · intro renderResult transcript st prompt raw ht
    simp only [handleVirtualBackgroundPrompt, if_neg ht]
    rw [hreq]
  · intro renderResult transcript st reason raw
    simp only [handleVirtualBackgroundPrompt]
    split_ifs <;> rfl
  · intro renderResult transcript st e
    simp only [handleVirtualBackgroundPrompt]
    split_ifs <;> rfl

/-- Claim C3, witness: on the concrete active session, a `Generate`
decision over a non-blank transcript sets the accepted prompt even though
the render throws. -/
theorem lastPrompt_follows_generate_decision_witness :
    (handleVirtualBackgroundPrompt
        (.ok (BackgroundPromptDecision.generate "a lake" "a lake")) none
        "hello there" activeSessionState).lastBackgroundPrompt =
      some "a lake" :=
  lastPrompt_follows_generate_decision.1 none "hello there" activeSessionState
    "a lake" "a lake" (by decide)

/-- Claim C4: `parseBackgroundPromptDecision` implements the decision
grammar word for word — empty/whitespace replies skip with the
empty-response reason, JSON `skip` keeps or defaults the reason, JSON
`generate` requires a non-empty prompt and otherwise skips with the
omitted-prompt reason, anything else becomes `Generate` of the raw
trimmed reply — including the four concrete examples from the
specification. -/
theorem decision_grammar_correct :
    (∀ reply : String,
        parseBackgroundPromptDecision reply = specDecisionGrammar reply) ∧
      parseBackgroundPromptDecision
          "\x7b\"status\":\"skip\",\"reason\":\"silence\"\x7d" =
        .skip "silence"
          "\x7b\"status\":\"skip\",\"reason\":\"silence\"\x7d" ∧
      parseBackgroundPromptDecision
          "\x7b\"status\":\"generate\",\"prompt\":\"a lake\"\x7d" =
        .generate "a lake"
          "\x7b\"status\":\"generate\",\"prompt\":\"a lake\"\x7d" ∧
      parseBackgroundPromptDecision "a lake at dusk" =
        .generate "a lake at dusk" "a lake at dusk" ∧
      parseBackgroundPromptDecision "" =
        .skip "Model returned an empty response." "" :=
  ⟨parseDecision_eq_grammar, by decide, by decide, by decide, by decide⟩

/-- Claim C5, counterexample: `adjustWheel` and `setActiveWheel` do not
consult `wheelsLocked` — called directly on a locked state they still
move the wheel position and the active index. -/
theorem adjustWheel_mutates_despite_lock :
    lockedWheelState.wheelsLocked = true ∧
      (adjustWheel ⟨0, by decide⟩ 1 lockedWheelState).positions
          ⟨0, by decide⟩ = 1 ∧
      adjustWheel ⟨0, by decide⟩ 1 lockedWheelState ≠ lockedWheelState ∧
      (setActiveWheel 3 lockedWheelState).activeWheelIndex = 3 ∧
      setActiveWheel 3 lockedWheelState ≠ lockedWheelState := by
  refine ⟨rfl, ?_, ?_, ?_, ?_⟩ <;> decide

/-- Claim C5, amended: the lock is enforced at the input handlers, not
inside `adjustWheel`/`setActiveWheel`: with `wheelsLocked` set, the wheel
scroll and click handlers leave the state unchanged, and with
`gesturesLocked` set, `processHandLandmarks` leaves the recognizer state
unchanged and emits no command — so no locked input path reaches
`adjustWheel`/`setActiveWheel`. -/
theorem lock_enforced_at_handlers :
    (∀ (idx : Fin WHEEL_COUNT) (dir : Bool) (st : WheelState),
        st.wheelsLocked = true →
        wheelScrollHandler idx dir st = st ∧
          wheelClickHandler idx dir st = st) ∧
      (∀ (hyp : Q → Q → Q) (result : Option HandLandmarkerResult) (now : Q)
          (gst : GestureState), gst.gesturesLocked = true →
          processHandLandmarks hyp result now gst = (gst, [])) := by
  constructor
  · intro idx dir st h
    constructor <;> simp [wheelScrollHandler, wheelClickHandler, h]
  · intro hyp result now gst h
    simp [processHandLandmarks, h]

/-- Claim C5, witness: the scroll handler is a no-op on the concrete
locked wheel state, and a locked recognizer drops a frame. -/
theorem lock_enforced_at_handlers_witness :
    wheelScrollHandler ⟨0, by decide⟩ true lockedWheelState =
        lockedWheelState ∧
      processHandLandmarks (fun _ _ => 0) none 0
          { leftHistory := [], rightHistory := [], lastTwoHandDistance := none,
            lastWheelAdjustTime := 0, lastWheelSwitchTime := 0,
            lastClapTime := 0, gesturesLocked := true } =
        ({ leftHistory := [], rightHistory := [], lastTwoHandDistance := none,
            lastWheelAdjustTime := 0, lastWheelSwitchTime := 0,
            lastClapTime := 0, gesturesLocked := true }, []) :=
  ⟨(lock_enforced_at_handlers.1 ⟨0, by decide⟩ true lockedWheelState rfl).1,
    lock_enforced_at_handlers.2 (fun _ _ => 0) none 0 _ rfl⟩

/-- Claim C6, counterexample: `adjustWheel` adds `CHARSET.length` only
once before the truncated `%`, so `Adjust(0, -41)` from the all-zero
state yields position `-1`, outside `[0, 40)` — the range invariant
fails for deltas below `-CHARSET.length`. -/
theorem adjust_large_negative_delta_escapes_range :
    WheelInv initialWheelState ∧
      (applyWheelOps [WheelOp.adjust ⟨0, by decide⟩ (-41)]
          initialWheelState).positions ⟨0, by decide⟩ = -1 ∧
      ¬WheelInv
        (applyWheelOps [WheelOp.adjust ⟨0, by decide⟩ (-41)]
          initialWheelState) := by
  refine ⟨by decide, by decide, by decide⟩

/-- Claim C6, amended: after any finite sequence of `Adjust`/`SetActive`
operations in which every `Adjust` delta is at least `-CHARSET.length`
(all call sites pass `±1`), every position stays in
`[0, CHARSET.length)` and the active index stays in `[0, WHEEL_COUNT)`;
`SetActive` tolerates arbitrary integer indices. -/
theorem wheel_ops_stay_in_range (ops : List WheelOp) (st : WheelState)
    (hst : WheelInv st)
    (hdelta : ∀ (idx : Fin WHEEL_COUNT) (delta : Int),
      WheelOp.adjust idx delta ∈ ops → -(CHARSET.length : Int) ≤ delta) :
    WheelInv (applyWheelOps ops st) := by
  induction ops generalizing st with
  | nil => exact hst
  | cons op rest ih =>
    have hstep : WheelInv (applyWheelOp st op) := by
      cases op with
      | adjust idx delta =>
        exact WheelInv_adjustWheel idx delta st hst
          (hdelta idx delta (List.mem_cons_self _ _))
      | setActive i => exact WheelInv_setActiveWheel i st hst
    exact ih _ hstep (fun idx delta hmem =>
      hdelta idx delta (List.mem_cons_of_mem _ hmem))

/-- Claim C6, witness: a concrete sequence with a negative adjust, a
negative set-active, and a large positive adjust keeps the invariant. -/
theorem wheel_ops_stay_in_range_witness :
    WheelInv
      (applyWheelOps
        [WheelOp.adjust ⟨0, by decide⟩ (-1), WheelOp.setActive (-7),
          WheelOp.adjust ⟨19, by decide⟩ 1000]
        initialWheelState) :=
  wheel_ops_stay_in_range _ initialWheelState (by decide)
    (by
      intro idx delta hmem
      simp only [List.mem_cons, List.mem_singleton] at hmem
      rcases hmem with h | h | h | h
      · cases h; decide
      · cases h
      · cases h; decide
      · cases h)

/-- Claim C7: in every event trace from the startup state at most one
Recording→Deciding segment is in flight, and a capture attempt made while
`isTranscriptionInProgress` is set launches nothing (the ghost counters
are untouched and the guard stays set) and, when the auto-loop is
enabled, arms the fixed 1000 ms retry timer instead. -/
theorem capture_single_flight :
    (∀ evs : List PipeEvent,
        (pipeRun evs (initialAppState, ⟨0, 0⟩)).2.captures ≤ 1) ∧
      (∀ (st : AppState) (k : InFlight) (micOk buttonPresent : Bool),
        st.isTranscriptionInProgress = true →
        (pipeStep (st, k) (.captureStart micOk buttonPresent)).2 = k ∧
        ((pipeStep (st, k)
            (.captureStart micOk buttonPresent)).1).isTranscriptionInProgress
          = true ∧
        (st.autoTranscriptionEnabled = true →
          ((pipeStep (st, k)
              (.captureStart micOk buttonPresent)).1).autoTranscriptionTimer =
            some AUTO_TRANSCRIPTION_RETRY_DELAY_MS)) := by
  constructor
  · intro evs
    have h := PipeInv_run evs (initialAppState, ⟨0, 0⟩) (by decide)
    obtain ⟨hc, -⟩ := h
    rw [hc]
    split <;> omega
  · intro st k micOk buttonPresent hbusy
    refine ⟨?_, ?_, ?_⟩ <;>
      simp [pipeStep, scheduleAutoTranscriptionFn,
        AUTO_TRANSCRIPTION_RETRY_DELAY_MS, hbusy] <;>
      split_ifs <;>
      simp_all [AUTO_TRANSCRIPTION_RETRY_DELAY_MS]

/-- Claim C7, witness: a capture attempt in the concrete busy state leaves
the counters unchanged and arms the 1000 ms retry. -/
theorem capture_single_flight_witness :
    (pipeStep (captureBusyState, ⟨1, 0⟩) (.captureStart true true)).2 =
        ⟨1, 0⟩ ∧
      ((pipeStep (captureBusyState, ⟨1, 0⟩)
          (.captureStart true true)).1).autoTranscriptionTimer = some 1000 :=
  ⟨(capture_single_flight.2 captureBusyState ⟨1, 0⟩ true true rfl).1,
    (capture_single_flight.2 captureBusyState ⟨1, 0⟩ true true rfl).2.2 rfl⟩

/-- Claim C8: in every event trace from the startup state at most one
render is in flight; a render request made while
`isBackgroundImageInProgress` is set returns with the state and counters
untouched; and the guard is independent of `captureBusy` — in the
concrete trace `overlapTrace`, cycle 1's render is still in flight while
cycle 2's capture segment runs (both ghost counters are 1). -/
theorem render_single_flight :
    (∀ evs : List PipeEvent,
        (pipeRun evs (initialAppState, ⟨0, 0⟩)).2.renders ≤ 1) ∧
      (∀ (st : AppState) (k : InFlight) (prompt : String),
        st.isBackgroundImageInProgress = true →
        pipeStep (st, k) (.renderStart prompt) = (st, k)) ∧
      ((pipeRun overlapTrace (initialAppState, ⟨0, 0⟩)).2.captures = 1 ∧
        (pipeRun overlapTrace (initialAppState, ⟨0, 0⟩)).2.renders = 1) := by
  refine ⟨?_, ?_, ?_⟩
  · intro evs
    have h := PipeInv_run evs (initialAppState, ⟨0, 0⟩) (by decide)
    obtain ⟨-, hr⟩ := h
    rw [hr]
    split <;> omega
  · intro st k prompt hbusy
    simp [pipeStep, hbusy]
  · decide

/-- Claim C8, witness: a render request in the concrete render-busy state
returns without starting anything. -/
theorem render_single_flight_witness :
    pipeStep (renderBusyState, ⟨0, 1⟩) (.renderStart "a lake") =
      (renderBusyState, ⟨0, 1⟩) :=
  render_single_flight.2.1 renderBusyState ⟨0, 1⟩ "a lake" rfl

/-- Claim C9: the hub's `normalizeScreenName` and the Zoom webview's
`normalizeScreenName` are extensionally equal — both return the empty
string for non-string input and otherwise the input trimmed, lowercased,
with every whitespace run collapsed to one space — so registration and
lookup key on identical identifiers. -/
theorem normalizeScreenName_hub_zoom_agree :
    (∀ input : Option String,
        hubNormalizeScreenName input = zoomNormalizeScreenName input) ∧
      hubNormalizeScreenName none = "" ∧
      (∀ s : String,
        hubNormalizeScreenName (some s) =
          collapseWs (jsToLower (jsTrim s))) ∧
      hubNormalizeScreenName (some "  Olga   ROKS ") = "olga roks" :=
  ⟨fun _ => rfl, rfl, fun _ => rfl, by decide⟩

/-- Claim C10: whenever the hub-supplied image key is required and its
delivery fails after all 15 attempts, the register-agent handler that has
already written the record responds 500 (never 200) and attempts to
delete the record; a 200 response implies no hub key was needed or the
delivery succeeded. -/
theorem register_agent_key_delivery_failure (req : RegisterAgentRequest)
    (setOk secretConfigured : Bool) (attemptOk : Nat → Bool) :
    (req.requiresNanobananaKey = true → req.hasLocalNanobananaKey = false →
      deliverDefaultNanobananaKey secretConfigured attemptOk = false →
      (registerAgentHandler req setOk secretConfigured
          attemptOk).recordWritten = true →
      (registerAgentHandler req setOk secretConfigured attemptOk).status =
          500 ∧
        (registerAgentHandler req setOk secretConfigured attemptOk).status ≠
          200 ∧
        (registerAgentHandler req setOk secretConfigured
            attemptOk).deleteAttempted = true) ∧
      ((registerAgentHandler req setOk secretConfigured attemptOk).status =
          200 →
        ¬(req.requiresNanobananaKey = true ∧
            req.hasLocalNanobananaKey = false) ∨
          deliverDefaultNanobananaKey secretConfigured attemptOk = true) := by
  constructor
  · intro hreq hlocal hfail hwritten
    simp only [registerAgentHandler] at hwritten ⊢
    split_ifs at hwritten ⊢ <;> simp_all
  · intro h200
    simp only [registerAgentHandler] at h200
    split_ifs at h200 <;> simp_all

/-- Claim C10, witness: a concrete registration that needs the hub key,
with no configured secret, yields a 500 and a delete attempt. -/
theorem register_agent_key_delivery_failure_witness :
    (registerAgentHandler
        ⟨some "Olga", "https://tunnel.example", true, false⟩ true false
        (fun _ => false)).status = 500 ∧
      (registerAgentHandler
          ⟨some "Olga", "https://tunnel.example", true, false⟩ true false
          (fun _ => false)).deleteAttempted = true :=
  ⟨((register_agent_key_delivery_failure
        ⟨some "Olga", "https://tunnel.example", true, false⟩ true false
        (fun _ => false)).1 rfl rfl (by decide) (by decide)).1,
    ((register_agent_key_delivery_failure
        ⟨some "Olga", "https://tunnel.example", true, false⟩ true false
        (fun _ => false)).1 rfl rfl (by decide) (by decide)).2.2⟩

end SlowlyUnhinged
